import Mathlib

/-
Verification development for the repository's two local HTTP servers:
`cors_server.py` (static files + CORS headers + `/api/encryption-key`
endpoint) and `launch.py` (static files + free-port search + browser).
The Python request-handling and configuration-resolution logic is embedded
shallowly as pure Lean functions over explicit environment / file-system
states; socket I/O and the byte stream are abstracted into a `Response`
value per request.
-/

set_option autoImplicit false

/-- A header is a (name, value) pair, as produced by `send_header`. -/
abbrev Header := String × String

/-- The five headers appended by the overridden `end_headers` of
`CORSRequestHandler` (cors_server.py lines 26-32), in the order sent. -/
def corsHeaders : List Header :=
  [("Access-Control-Allow-Origin", "*"),
   ("Access-Control-Allow-Methods", "GET, POST, OPTIONS"),
   ("Access-Control-Allow-Headers", "Origin, Content-Type, Accept, Range"),
   ("Cross-Origin-Opener-Policy", "same-origin"),
   ("Cross-Origin-Embedder-Policy", "require-corp")]

/-- Status, headers and body accumulated by a handler branch before its
final `end_headers` call flushes them. -/
structure StaticResult where
  status : Nat
  preHeaders : List Header
  body : String
deriving DecidableEq

/-- A complete HTTP response as observed on the wire (status line, headers,
body); the automatic `Server`/`Date` headers of the Python base class are
outside the model. -/
structure Response where
  status : Nat
  headers : List Header
  body : String
deriving DecidableEq

/-- The overridden `end_headers`: the five CORS/COOP/COEP headers are
appended after whatever headers the branch already sent, then the header
block is flushed. -/
def end_headers (hs : List Header) : List Header :=
  hs ++ corsHeaders

/-- Flushing a branch's accumulated result through `end_headers` yields the
final response. Every response-producing path of the handler ends here,
because `end_headers` is overridden on the class. -/
def finalize (r : StaticResult) : Response :=
  ⟨r.status, end_headers r.preHeaders, r.body⟩

/-- Python truthiness of an optional string (`if not self.encryption_key`):
`None` and the empty string are falsy, every other string is truthy. -/
def truthy : Option String → Bool
  | none => false
  | some s => !(s = "")

/-- State of the sibling `local_config.json` file at the moment it is
consulted: absent (`os.path.exists` false), present but raising on
`open`/`json.load` (I/O error or malformed JSON), or parsed to an object
whose string fields are modelled as an association list. -/
inductive FileState where
  | missing
  | unreadable (msg : String)
  | parsed (cfg : List (String × String))
deriving DecidableEq

/-- Python `dict.get`: the value stored under `k`, or `None`. -/
def dictGet (cfg : List (String × String)) (k : String) : Option String :=
  match cfg.find? (fun kv => kv.fst = k) with
  | some kv => some kv.snd
  | none => none

/-- The configuration-resolution logic of `CORSRequestHandler.__init__`
(cors_server.py lines 7-24), which runs each time a handler is constructed:
take `os.environ.get('VITE_ENCRYPTION_KEY')`; if that is falsy, fall back
to `local_config.json`, treating a missing file, a read/parse failure
(caught `Exception`) and a missing field all as `None`. -/
def init_encryption_key (env : Option String) (file : FileState) : Option String :=
  if truthy env then env
  else
    match file with
    | .missing => none
    | .unreadable _ => none
    | .parsed cfg => dictGet cfg "VITE_ENCRYPTION_KEY"

/-- Lower-case hexadecimal digit, as used by Python's JSON `\uXXXX` escapes. -/
def hexDigit (n : Nat) : Char :=
  if n < 10 then Char.ofNat (48 + n) else Char.ofNat (87 + n % 16)

/-- Four lower-case hex digits of `n < 0x10000`. -/
def hex4 (n : Nat) : List Char :=
  [hexDigit (n / 4096 % 16), hexDigit (n / 256 % 16), hexDigit (n / 16 % 16), hexDigit (n % 16)]

/-- Escaping of one character by Python's `json.dumps` with its default
`ensure_ascii=True`: short escapes for backslash, quote and the control
characters with names; printable ASCII kept verbatim; everything else as
`\uXXXX`, with surrogate pairs above the BMP. -/
def escapeChar (c : Char) : List Char :=
  if c = '\\' then ['\\', '\\']
  else if c = '"' then ['\\', '"']
  else if c = Char.ofNat 8 then ['\\', 'b']
  else if c = Char.ofNat 9 then ['\\', 't']
  else if c = Char.ofNat 10 then ['\\', 'n']
  else if c = Char.ofNat 12 then ['\\', 'f']
  else if c = Char.ofNat 13 then ['\\', 'r']
  else if 32 ≤ c.toNat ∧ c.toNat ≤ 126 then [c]
  else if c.toNat < 65536 then '\\' :: 'u' :: hex4 c.toNat
  else
    ('\\' :: 'u' :: hex4 (55296 + (c.toNat - 65536) / 1024)) ++
      ('\\' :: 'u' :: hex4 (56320 + (c.toNat - 65536) % 1024))

/-- Characters `json.dumps` emits verbatim inside a string literal. -/
def plainChar (c : Char) : Bool :=
  (32 ≤ c.toNat && c.toNat ≤ 126) && !(c = '"') && !(c = '\\')

/-- Escape every character of a string body. -/
def escList (l : List Char) : List Char :=
  l.foldr (fun c acc => escapeChar c ++ acc) []

/-- Python's JSON serialization of the string `s` (quotes included). -/
def pyJsonQuote (s : String) : String :=
  String.mk ('"' :: escList s.data ++ ['"'])

/-- `json.dumps({'key': v})` with default separators: a space after the
colon, no trailing space. -/
def dumpsKeyObj (v : String) : String :=
  "\x7b\"key\": " ++ pyJsonQuote v ++ "\x7d"

/-- The dedicated key-endpoint path matched by `do_GET`. -/
def api_path : String := "/api/encryption-key"

/-- The key-endpoint branch of `do_GET` (cors_server.py lines 39-50):
truthy key yields 200 / `application/json` / the JSON object; falsy key
yields 404 with the fixed plain-text body. -/
def keyEndpointResponse (key : Option String) : Response :=
  if truthy key then
    finalize ⟨200, [("Content-Type", "application/json")], dumpsKeyObj (key.getD "")⟩
  else
    finalize ⟨404, [], "Encryption key not configured"⟩

/-- `do_GET` (cors_server.py lines 38-53): the key endpoint is matched
first and returns without touching the filesystem; every other path is
delegated to `SimpleHTTPRequestHandler.do_GET`, modelled by the abstract
`static` function from path to accumulated result (its headers still pass
through the overridden `end_headers`). -/
def do_GET (key : Option String) (static : String → StaticResult) (path : String) : Response :=
  if path = api_path then keyEndpointResponse key
  else finalize (static path)

/-- `do_OPTIONS` (cors_server.py lines 34-36): `send_response(200, "ok")`
then `end_headers()`; no body is written and the path is never inspected. -/
def do_OPTIONS (_path : String) : Response :=
  finalize ⟨200, [], ""⟩

/-- Request methods reaching the handler: the three with `do_*` methods on
the class (GET, HEAD from the base class, OPTIONS), and any other method
name, which the base class answers with `send_error(501)`. -/
inductive Method where
  | GET
  | HEAD
  | OPTIONS
  | other (name : String)
deriving DecidableEq

/-- `send_error` of the Python base class: sends the code, a `Content-Type`
and `Connection: close` header, then `end_headers`, then an HTML error page
whose text is modelled by the abstract `errBody`. -/
def send_error (errBody : Nat → String) (code : Nat) : Response :=
  finalize ⟨code, [("Content-Type", "text/html;charset=utf-8"), ("Connection", "close")], errBody code⟩

/-- Dispatch of one request by `CORSRequestHandler`: GET via `do_GET`, HEAD
via the base class's `send_head` (same header path, empty body), OPTIONS
via `do_OPTIONS`, anything else via `send_error(501)`. -/
def handle_request (key : Option String) (static staticHead : String → StaticResult)
    (errBody : Nat → String) (m : Method) (path : String) : Response :=
  match m with
  | .GET => do_GET key static path
  | .HEAD => finalize ⟨(staticHead path).status, (staticHead path).preHeaders, ""⟩
  | .OPTIONS => do_OPTIONS path
  | .other _ => send_error errBody 501

/-- One full GET request to `/api/encryption-key` as the running server
handles it: a fresh handler is constructed (re-running the resolution of
`__init__` against the environment and config file as they stand at that
moment), then `do_GET` answers. The static fallback is irrelevant on this
path and fixed to an empty 404. -/
def serveKeyRequest (env : Option String) (file : FileState) : Response :=
  do_GET (init_encryption_key env file) (fun _ => ⟨404, [], ""⟩) api_path

/-- The message of the `RuntimeError` raised by `find_free_port`
(launch.py line 45): the f-string interpolates `start_port` and
`start_port + max_attempts`. -/
def port_error_msg (start_port max_attempts : Nat) : String :=
  "Could not find a free port between " ++ toString start_port ++ " and " ++
    toString (start_port + max_attempts)

/-- The loop body of `find_free_port` (launch.py lines 38-44), with the
remaining number of ports to try as structural fuel: try `port`; on a
successful bind return it, on `OSError` move to the next port; when the
range is exhausted raise. Bind success at a given port is the abstract
predicate `free`. -/
def find_free_port_go (free : Nat → Bool) (start_port max_attempts : Nat) :
    Nat → Nat → Except String Nat
  | _, 0 => .error (port_error_msg start_port max_attempts)
  | port, fuel + 1 =>
    if free port then .ok port
    else find_free_port_go free start_port max_attempts (port + 1) fuel

/-- `find_free_port(start_port, max_attempts)` (launch.py lines 36-45):
scan `range(start_port, start_port + max_attempts)` in order, return the
first port that binds, else raise `RuntimeError`. -/
def find_free_port (free : Nat → Bool) (start_port max_attempts : Nat) : Except String Nat :=
  find_free_port_go free start_port max_attempts start_port max_attempts

/-- Outcome of `main` in launch.py, as far as the port search goes:
either the server is started on a chosen port, or the process exits with
a code via `sys.exit`. -/
inductive LaunchResult where
  | started (port : Nat)
  | exited (code : Nat)
deriving DecidableEq

/-- The control flow of `main` (launch.py lines 93-120) around the port
search: a failed file check exits with code 1; otherwise
`find_free_port(8000)` is called with its default 100 attempts, a
`RuntimeError` is caught and turned into `sys.exit(1)`, and a found port
is used to start the server. -/
def launch_main (files_ok : Bool) (free : Nat → Bool) : LaunchResult :=
  if files_ok then
    match find_free_port free 8000 100 with
    | .ok p => .started p
    | .error _ => .exited 1
  else .exited 1

/-- A character that escapes to itself is emitted verbatim. -/
theorem escapeChar_plain {c : Char} (h : plainChar c = true) : escapeChar c = [c] := by
  simp only [plainChar, Bool.and_eq_true, Bool.not_eq_true', decide_eq_true_eq,
    decide_eq_false_iff_not] at h
  obtain ⟨⟨⟨h1, h2⟩, hq⟩, hb⟩ := h
  have h8 : ¬(c = Char.ofNat 8) := by intro he; rw [he] at h1; exact absurd h1 (by decide)
  have h9 : ¬(c = Char.ofNat 9) := by intro he; rw [he] at h1; exact absurd h1 (by decide)
  have h10 : ¬(c = Char.ofNat 10) := by intro he; rw [he] at h1; exact absurd h1 (by decide)
  have h12 : ¬(c = Char.ofNat 12) := by intro he; rw [he] at h1; exact absurd h1 (by decide)
  have h13 : ¬(c = Char.ofNat 13) := by intro he; rw [he] at h1; exact absurd h1 (by decide)
  rw [escapeChar, if_neg hb, if_neg hq, if_neg h8, if_neg h9, if_neg h10, if_neg h12,
    if_neg h13, if_pos ⟨h1, h2⟩]

/-- A string of verbatim characters is unchanged by JSON escaping. -/
theorem escList_plain : ∀ {l : List Char}, (∀ c ∈ l, plainChar c = true) → escList l = l
  | [], _ => rfl
  | c :: l, h => by
    have hc := h c (List.mem_cons_self c l)
    have ih := escList_plain (fun d hd => h d (List.mem_cons_of_mem c hd))
    show escapeChar c ++ escList l = c :: l
    rw [escapeChar_plain hc, ih]
    rfl

/-- JSON string serialization of an escape-free string just wraps it in quotes. -/
theorem pyJsonQuote_plain {s : String} (h : ∀ c ∈ s.data, plainChar c = true) :
    pyJsonQuote s = "\"" ++ s ++ "\"" := by
  apply String.ext
  rw [pyJsonQuote, escList_plain h]
  simp only [String.data_append, List.append_assoc]
  rfl

/-- For an escape-free value the serialized key object is the literal splice
of the value between the fixed framing characters. -/
theorem dumpsKeyObj_plain {s : String} (h : ∀ c ∈ s.data, plainChar c = true) :
    dumpsKeyObj s = "\x7b\"key\": \"" ++ s ++ "\"\x7d" := by
  apply String.ext
  rw [dumpsKeyObj, pyJsonQuote_plain h]
  simp only [String.data_append, List.append_assoc]
  rfl

/-- C1 counterexample: two GET /api/encryption-key requests of the same
server run (environment variable unset throughout) receive different
bodies when the config file's field changes between the requests, because
`__init__` re-resolves the key for every request; the value served is not
the same across all requests of one run. -/
theorem c1_value_changes_across_requests :
    serveKeyRequest none (.parsed [("VITE_ENCRYPTION_KEY", "a")]) ≠
      serveKeyRequest none (.parsed [("VITE_ENCRYPTION_KEY", "b")]) := by
  decide

/-- C1 (amended): the configuration value is resolved anew at each
request's handler construction, so the response to GET /api/encryption-key
is exactly the key-endpoint response for the resolution against the
environment variable and config file as they stand at that request; in
particular two requests whose request-time resolutions agree receive equal
responses. -/
theorem c1_key_resolved_per_request (env env2 : Option String) (file file2 : FileState) :
    serveKeyRequest env file = keyEndpointResponse (init_encryption_key env file) ∧
    (init_encryption_key env file = init_encryption_key env2 file2 →
      serveKeyRequest env file = serveKeyRequest env2 file2) := by
  refine ⟨rfl, fun h => ?_⟩
  show do_GET (init_encryption_key env file) _ api_path = do_GET (init_encryption_key env2 file2) _ api_path
  rw [h]

/-- C1 witness: concrete instantiation of the amended statement at two
request-time states with equal resolutions. -/
theorem c1_key_resolved_per_request_witness :
    init_encryption_key none (.parsed [("VITE_ENCRYPTION_KEY", "a")]) =
      init_encryption_key (some "") (.parsed [("VITE_ENCRYPTION_KEY", "a")]) ∧
    serveKeyRequest none (.parsed [("VITE_ENCRYPTION_KEY", "a")]) =
      serveKeyRequest (some "") (.parsed [("VITE_ENCRYPTION_KEY", "a")]) :=
  ⟨by decide,
    (c1_key_resolved_per_request none (some "")
      (.parsed [("VITE_ENCRYPTION_KEY", "a")]) (.parsed [("VITE_ENCRYPTION_KEY", "a")])).2
      (by decide)⟩

/-- C2: a GET to /api/encryption-key with a present (nonempty) configured
value responds 200 with a Content-Type: application/json header and a body
that is exactly the JSON serialization of the object with field "key"
bound to the value; when the value needs no JSON escaping the body is the
literal splice of the value, e.g. value "abc123" yields exactly
the body with the value between the quote characters. -/
theorem c2_get_key_present (key : String) (static : String → StaticResult)
    (h : ¬ key = "") :
    (do_GET (some key) static api_path).status = 200 ∧
    ("Content-Type", "application/json") ∈ (do_GET (some key) static api_path).headers ∧
    (do_GET (some key) static api_path).body = dumpsKeyObj key ∧
    ((∀ c ∈ key.data, plainChar c = true) →
      (do_GET (some key) static api_path).body = "\x7b\"key\": \"" ++ key ++ "\"\x7d") := by
  have e : do_GET (some key) static api_path =
      finalize ⟨200, [("Content-Type", "application/json")], dumpsKeyObj key⟩ := by
    simp [do_GET, keyEndpointResponse, truthy, h]
  rw [e]
  refine ⟨rfl, ?_, rfl, fun hp => dumpsKeyObj_plain hp⟩
  simp [finalize, end_headers]

/-- C2 witness: the spec's own example, value "abc123". -/
theorem c2_get_key_present_witness :
    ¬ "abc123" = "" ∧
    (do_GET (some "abc123") (fun _ => ⟨404, [], ""⟩) api_path).status = 200 ∧
    ("Content-Type", "application/json") ∈
      (do_GET (some "abc123") (fun _ => ⟨404, [], ""⟩) api_path).headers ∧
    (do_GET (some "abc123") (fun _ => ⟨404, [], ""⟩) api_path).body = "\x7b\"key\": \"abc123\"\x7d" := by
  have h := c2_get_key_present "abc123" (fun _ => ⟨404, [], ""⟩) (by decide)
  exact ⟨by decide, h.1, h.2.1, h.2.2.2 (by decide)⟩

/-- C3: a GET to /api/encryption-key when resolution produced no value at
all responds 404 with the exact plain-text body. -/
theorem c3_get_key_absent (env : Option String) (file : FileState)
    (static : String → StaticResult)
    (h : init_encryption_key env file = none) :
    (do_GET (init_encryption_key env file) static api_path).status = 404 ∧
    (do_GET (init_encryption_key env file) static api_path).body =
      "Encryption key not configured" := by
  rw [h]
  exact ⟨rfl, rfl⟩

/-- C3 witness: no environment variable and no config file present. -/
theorem c3_get_key_absent_witness :
    init_encryption_key none .missing = none ∧
    (do_GET (init_encryption_key none .missing) (fun _ => ⟨404, [], ""⟩) api_path).status = 404 ∧
    (do_GET (init_encryption_key none .missing) (fun _ => ⟨404, [], ""⟩) api_path).body =
      "Encryption key not configured" := by
  have h := c3_get_key_absent none .missing (fun _ => ⟨404, [], ""⟩) rfl
  exact ⟨rfl, h.1, h.2⟩

/-- C4 counterexample: with the environment variable set to the empty
string and the file containing the field with value "xyz", resolution
uses the file's value, not the environment variable's value — so "whenever
the environment variable is set, its value is used and the file is
ignored" fails for the empty-string setting. -/
theorem c4_env_set_not_always_used :
    init_encryption_key (some "") (.parsed [("VITE_ENCRYPTION_KEY", "xyz")]) = some "xyz" ∧
    ¬ init_encryption_key (some "") (.parsed [("VITE_ENCRYPTION_KEY", "xyz")]) = some "" := by
  decide

/-- C4 (amended): whenever the environment variable is set to a nonempty
string its value is used and the file is ignored; whenever the environment
variable is absent or empty and the parsed file maps the field to a
nonempty value v, the file's value is used and GET /api/encryption-key
responds 200 with body the serialization of the object binding "key"
to v. -/
theorem c4_resolution_priority (env : Option String) (file : FileState)
    (cfg : List (String × String)) (v : String) :
    (truthy env = true → init_encryption_key env file = env) ∧
    (truthy env = false → dictGet cfg "VITE_ENCRYPTION_KEY" = some v → ¬ v = "" →
      init_encryption_key env (.parsed cfg) = some v ∧
      (serveKeyRequest env (.parsed cfg)).status = 200 ∧
      (serveKeyRequest env (.parsed cfg)).body = dumpsKeyObj v) := by
  constructor
  · intro h
    rw [init_encryption_key.eq_def, if_pos h]
  · intro h hv hne
    have e : init_encryption_key env (.parsed cfg) = some v := by
      rw [init_encryption_key, if_neg (by simp [h])]
      exact hv
    have e2 : serveKeyRequest env (.parsed cfg) =
        finalize ⟨200, [("Content-Type", "application/json")], dumpsKeyObj v⟩ := by
      rw [serveKeyRequest, e]
      simp [do_GET, keyEndpointResponse, truthy, hne]
    exact ⟨e, by rw [e2]; rfl, by rw [e2]; rfl⟩

/-- C4 witness: environment variable absent, file field "xyz": the file
value is served with the spec's example body. -/
theorem c4_resolution_priority_witness :
    truthy none = false ∧
    dictGet [("VITE_ENCRYPTION_KEY", "xyz")] "VITE_ENCRYPTION_KEY" = some "xyz" ∧
    ¬ "xyz" = "" ∧
    init_encryption_key none (.parsed [("VITE_ENCRYPTION_KEY", "xyz")]) = some "xyz" ∧
    (serveKeyRequest none (.parsed [("VITE_ENCRYPTION_KEY", "xyz")])).status = 200 ∧
    (serveKeyRequest none (.parsed [("VITE_ENCRYPTION_KEY", "xyz")])).body =
      "\x7b\"key\": \"xyz\"\x7d" := by
  have h := (c4_resolution_priority none (.parsed [("VITE_ENCRYPTION_KEY", "xyz")])
    [("VITE_ENCRYPTION_KEY", "xyz")] "xyz").2 rfl rfl (by decide)
  refine ⟨rfl, rfl, by decide, h.1, h.2.1, ?_⟩
  rw [h.2.2]
  decide


/-- Every branch of the request dispatch ends by flushing through the
overridden `end_headers`. -/
theorem handle_request_is_finalized (key : Option String)
    (static staticHead : String → StaticResult) (errBody : Nat → String)
    (m : Method) (path : String) :
    ∃ sr, handle_request key static staticHead errBody m path = finalize sr := by
  cases m with
  | GET =>
    show ∃ sr, do_GET key static path = finalize sr
    rw [do_GET]
    split
    · rw [keyEndpointResponse]
      split
      · exact ⟨_, rfl⟩
      · exact ⟨_, rfl⟩
    · exact ⟨_, rfl⟩
  | HEAD => exact ⟨_, rfl⟩
  | OPTIONS => exact ⟨_, rfl⟩
  | other name => exact ⟨_, rfl⟩

/-- C5: every response of the server — any method, any path, errors and
preflight included — carries the five CORS/COOP/COEP headers with exactly
the specified values. -/
theorem c5_cors_policy_on_every_response (key : Option String)
    (static staticHead : String → StaticResult) (errBody : Nat → String)
    (m : Method) (path : String) :
    ("Access-Control-Allow-Origin", "*") ∈
      (handle_request key static staticHead errBody m path).headers ∧
    ("Access-Control-Allow-Methods", "GET, POST, OPTIONS") ∈
      (handle_request key static staticHead errBody m path).headers ∧
    ("Access-Control-Allow-Headers", "Origin, Content-Type, Accept, Range") ∈
      (handle_request key static staticHead errBody m path).headers ∧
    ("Cross-Origin-Opener-Policy", "same-origin") ∈
      (handle_request key static staticHead errBody m path).headers ∧
    ("Cross-Origin-Embedder-Policy", "require-corp") ∈
      (handle_request key static staticHead errBody m path).headers := by
  obtain ⟨sr, hsr⟩ := handle_request_is_finalized key static staticHead errBody m path
  rw [hsr]
  refine ⟨?_, ?_, ?_, ?_, ?_⟩ <;>
    · show _ ∈ sr.preHeaders ++ corsHeaders
      exact List.mem_append_right _ (by decide)

/-- C6: a config file that raises while being read or parsed is caught
and treated exactly as an absent key (the resolution is total and yields
`None`): with the environment variable falsy, GET /api/encryption-key
responds 404 with the fixed body, and every other path is still served by
the static-file fallback. -/
theorem c6_config_error_treated_as_absent (env : Option String) (msg : String)
    (static : String → StaticResult) (path : String)
    (h : truthy env = false) :
    init_encryption_key env (.unreadable msg) = none ∧
    (do_GET (init_encryption_key env (.unreadable msg)) static api_path).status = 404 ∧
    (do_GET (init_encryption_key env (.unreadable msg)) static api_path).body =
      "Encryption key not configured" ∧
    (¬ path = api_path →
      do_GET (init_encryption_key env (.unreadable msg)) static path = finalize (static path)) := by
  have e : init_encryption_key env (.unreadable msg) = none := by
    rw [init_encryption_key.eq_def, if_neg (by simp [h])]
  rw [e]
  exact ⟨rfl, rfl, rfl, fun hp => by rw [do_GET, if_neg hp]⟩

/-- C6 witness: malformed JSON (a concrete parse-error message), no
environment variable; the server still serves a static path. -/
theorem c6_config_error_treated_as_absent_witness :
    truthy none = false ∧
    init_encryption_key none (.unreadable "Expecting value: line 1 column 1 (char 0)") = none ∧
    (do_GET (init_encryption_key none (.unreadable "Expecting value: line 1 column 1 (char 0)"))
      (fun _ => ⟨200, [], "contents"⟩) api_path).status = 404 ∧
    (do_GET (init_encryption_key none (.unreadable "Expecting value: line 1 column 1 (char 0)"))
      (fun _ => ⟨200, [], "contents"⟩) api_path).body = "Encryption key not configured" ∧
    do_GET (init_encryption_key none (.unreadable "Expecting value: line 1 column 1 (char 0)"))
      (fun _ => ⟨200, [], "contents"⟩) "/index.html" = finalize ⟨200, [], "contents"⟩ := by
  have h := c6_config_error_treated_as_absent none "Expecting value: line 1 column 1 (char 0)"
    (fun _ => ⟨200, [], "contents"⟩) "/index.html" rfl
  exact ⟨rfl, h.1, h.2.1, h.2.2.1, h.2.2.2 (by decide)⟩

/-- C7: a GET for /api/encryption-key is answered entirely by the key
branch — the response equals the key-endpoint response and is the same
whatever the filesystem contains — while every other GET path is delegated
to the static-file fallback. -/
theorem c7_api_path_intercepted (key : Option String)
    (s1 s2 : String → StaticResult) (path : String) :
    (path = api_path →
      do_GET key s1 path = keyEndpointResponse key ∧
      do_GET key s1 path = do_GET key s2 path) ∧
    (¬ path = api_path → do_GET key s1 path = finalize (s1 path)) := by
  constructor
  · intro hp
    subst hp
    exact ⟨by rw [do_GET, if_pos rfl], by rw [do_GET, do_GET, if_pos rfl, if_pos rfl]⟩
  · intro hp
    rw [do_GET, if_neg hp]

/-- C7 witness: the key path with two different filesystems, and a
distinct static path. -/
theorem c7_api_path_intercepted_witness :
    do_GET (some "k") (fun _ => ⟨200, [], "A"⟩) "/api/encryption-key" =
      keyEndpointResponse (some "k") ∧
    do_GET (some "k") (fun _ => ⟨200, [], "A"⟩) "/api/encryption-key" =
      do_GET (some "k") (fun _ => ⟨500, [], "B"⟩) "/api/encryption-key" ∧
    do_GET (some "k") (fun _ => ⟨200, [], "A"⟩) "/index.html" = finalize ⟨200, [], "A"⟩ := by
  have h1 := (c7_api_path_intercepted (some "k") (fun _ => ⟨200, [], "A"⟩)
    (fun _ => ⟨500, [], "B"⟩) "/api/encryption-key").1 rfl
  have h2 := (c7_api_path_intercepted (some "k") (fun _ => ⟨200, [], "A"⟩)
    (fun _ => ⟨500, [], "B"⟩) "/index.html").2 (by decide)
  exact ⟨h1.1, h1.2, h2⟩

/-- C8: an OPTIONS request, whatever its path, is answered 200 with an
empty body and exactly the CORS policy headers; the path is never
inspected, so no path validation happens. -/
theorem c8_options_any_path (path : String) :
    do_OPTIONS path = ⟨200, corsHeaders, ""⟩ :=
  rfl

/-- C9: the empty string counts as absent everywhere in key resolution:
an environment variable set to the empty string falls through to the
config file exactly as an unset variable does, and a resolved value that
is itself the empty string makes GET /api/encryption-key respond 404 with
the not-configured body rather than 200. -/
theorem c9_empty_string_is_absent (env : Option String) (file : FileState)
    (static : String → StaticResult) :
    (env = some "" → init_encryption_key env file = init_encryption_key none file) ∧
    (init_encryption_key env file = some "" →
      (do_GET (init_encryption_key env file) static api_path).status = 404 ∧
      (do_GET (init_encryption_key env file) static api_path).body =
        "Encryption key not configured") := by
  constructor
  · intro h
    subst h
    rfl
  · intro h
    rw [h]
    exact ⟨rfl, rfl⟩

/-- C9 witness: environment variable set to the empty string, config file
mapping the field to the empty string. -/
theorem c9_empty_string_is_absent_witness :
    init_encryption_key (some "") (.parsed [("VITE_ENCRYPTION_KEY", "")]) =
      init_encryption_key none (.parsed [("VITE_ENCRYPTION_KEY", "")]) ∧
    init_encryption_key (some "") (.parsed [("VITE_ENCRYPTION_KEY", "")]) = some "" ∧
    (do_GET (init_encryption_key (some "") (.parsed [("VITE_ENCRYPTION_KEY", "")]))
      (fun _ => ⟨404, [], ""⟩) api_path).status = 404 ∧
    (do_GET (init_encryption_key (some "") (.parsed [("VITE_ENCRYPTION_KEY", "")]))
      (fun _ => ⟨404, [], ""⟩) api_path).body = "Encryption key not configured" := by
  have h := c9_empty_string_is_absent (some "") (.parsed [("VITE_ENCRYPTION_KEY", "")])
    (fun _ => ⟨404, [], ""⟩)
  exact ⟨h.1 rfl, by decide, (h.2 (by decide)).1, (h.2 (by decide)).2⟩

/-- If the port scan returns a port, that port is free, lies in the
scanned window, and every earlier port of the window is busy. -/
theorem find_free_port_go_ok (free : Nat → Bool) (s m : Nat) :
    ∀ fuel port p, find_free_port_go free s m port fuel = .ok p →
      free p = true ∧ port ≤ p ∧ p < port + fuel ∧
        ∀ q, port ≤ q → q < p → free q = false := by
  intro fuel
  induction fuel with
  | zero =>
    intro port p h
    exact absurd h (by rw [find_free_port_go]; intro he; cases he)
  | succ n ih =>
    intro port p h
    rw [find_free_port_go] at h
    by_cases hf : free port = true
    · rw [if_pos hf] at h
      cases h
      exact ⟨hf, Nat.le_refl _, by omega, fun q h1 h2 => by omega⟩
    · rw [if_neg hf] at h
      have hf2 : free port = false := by
        cases hfp : free port
        · rfl
        · exact absurd hfp hf
      obtain ⟨g1, g2, g3, g4⟩ := ih (port + 1) p h
      refine ⟨g1, by omega, by omega, fun q h1 h2 => ?_⟩
      rcases Nat.lt_or_ge q (port + 1) with h3 | h3
      · have : q = port := by omega
        rw [this]
        exact hf2
      · exact g4 q h3 h2

/-- If every port of the scanned window is busy, the scan raises the
RuntimeError with the source's interpolated message. -/
theorem find_free_port_go_err (free : Nat → Bool) (s m : Nat) :
    ∀ fuel port, (∀ q, port ≤ q → q < port + fuel → free q = false) →
      find_free_port_go free s m port fuel = .error (port_error_msg s m) := by
  intro fuel
  induction fuel with
  | zero => intro port _; rw [find_free_port_go]
  | succ n ih =>
    intro port h
    rw [find_free_port_go]
    have hf : free port = false := h port (Nat.le_refl port) (by omega)
    rw [if_neg (by rw [hf]; intro he; cases he)]
    exact ih (port + 1) (fun q h1 h2 => h q (by omega) (by omega))

/-- C10: `find_free_port(start_port, max_attempts)` either returns the
smallest port of the window `[start_port, start_port + max_attempts)` on
which a bind succeeded, or — when every port of the window is busy —
raises a RuntimeError, which `main` turns into exit code 1; it never
returns a port outside the window. -/
theorem c10_find_free_port_spec (free : Nat → Bool) (start_port max_attempts p : Nat) :
    (find_free_port free start_port max_attempts = .ok p →
      free p = true ∧ start_port ≤ p ∧ p < start_port + max_attempts ∧
        ∀ q, start_port ≤ q → q < p → free q = false) ∧
    ((∀ q, start_port ≤ q → q < start_port + max_attempts → free q = false) →
      find_free_port free start_port max_attempts =
        .error (port_error_msg start_port max_attempts)) ∧
    ((∀ q, 8000 ≤ q → q < 8100 → free q = false) → launch_main true free = .exited 1) := by
  refine ⟨?_, ?_, ?_⟩
  · exact fun h =>
      find_free_port_go_ok free start_port max_attempts max_attempts start_port p h
  · exact fun h =>
      find_free_port_go_err free start_port max_attempts max_attempts start_port h
  · intro h
    have e : find_free_port free 8000 100 = .error (port_error_msg 8000 100) :=
      find_free_port_go_err free 8000 100 100 8000 (fun q h1 h2 => h q h1 (by omega))
    rw [launch_main, if_pos rfl, e]

/-- C10 witness: a bind predicate free exactly at port 8003 (found after
three busy ports), and an all-busy predicate driving main to exit 1. -/
theorem c10_find_free_port_spec_witness :
    find_free_port (fun n => n == 8003) 8000 100 = .ok 8003 ∧
    (fun n => n == 8003) 8003 = true ∧
    8000 ≤ 8003 ∧ 8003 < 8000 + 100 ∧
    (fun n => n == 8003) 8001 = false ∧
    launch_main true (fun _ => false) = .exited 1 := by
  have h := (c10_find_free_port_spec (fun n => n == 8003) 8000 100 8003).1 rfl
  exact ⟨rfl, h.1, h.2.1, h.2.2.1, h.2.2.2 8001 (by omega) (by omega),
    (c10_find_free_port_spec (fun _ => false) 8000 100 0).2.2 (fun q h1 h2 => rfl)⟩
